import Mathlib

/-!
Verification of the orchestration core of `seed.py` (the always-on supervisor
process of the jodo repository, file `src/kernel/seed/seed.py`).

The Python source is shallowly embedded: pure computations become Lean
functions, effectful calls (the reasoning service, subprocesses, worker
processes, the wall clock) become explicit oracle parameters or fields
recording the observable state, and module-level mutable state becomes
explicit state values threaded through the transition functions.
Timestamps (Python floats from `time.time()`) are modelled as rationals.
-/

namespace Seed

/-! ### String helpers mirroring the Python string operations used by seed.py -/

/-- Python `sub in s` (substring containment), on the character lists. -/
def strContains (s sub : String) : Bool :=
  s.data.tails.any (fun t => sub.data.isPrefixOf t)

/-- Python `s.startswith(pre)`, on the character lists. -/
def strStarts (s pre : String) : Bool :=
  pre.data.isPrefixOf s.data

/-- Python `s.strip()` on the left: drop leading whitespace characters. -/
def pyStripLeftL (l : List Char) : List Char :=
  l.dropWhile Char.isWhitespace

/-- Python `s.strip()` on the right: drop trailing whitespace characters. -/
def pyStripRightL (l : List Char) : List Char :=
  (l.reverse.dropWhile Char.isWhitespace).reverse

/-- Python `s.strip()` (ASCII whitespace; the shell outputs in scope are ASCII). -/
def pyStrip (s : String) : String :=
  ⟨pyStripRightL (pyStripLeftL s.data)⟩

/-- Python `s.lower()` (ASCII case folding, which covers every string the
source lowercases). -/
def pyLower (s : String) : String :=
  ⟨s.data.map Char.toLower⟩

/-- The `ERROR:` marker convention of the tool registry:
`isinstance(result, str) and result.startswith("ERROR:")`. -/
def isErrorResult (result : String) : Bool :=
  strStarts result "ERROR:"

/-! ### Health endpoint (`SeedHandler.do_GET`, `_HEARTBEAT_MAX`)

`_HEARTBEAT_MAX = SLEEP_SECONDS + 600 + 60` and the `/health` route computes
`stale = (time.time() - _heartbeat) > _HEARTBEAT_MAX`,
`healthy = alive and not stale`, answering `("ok", 200)` or
`("unhealthy", 503)`.  Only the `status` field and the HTTP code of the JSON
reply are claimed about; the remaining body fields are informational echoes
of state variables. -/

/-- Computation of `_HEARTBEAT_MAX`: sleep interval + think timeout (600 s)
+ buffer (60 s). -/
def heartbeat_max (sleepSeconds : ℚ) : ℚ :=
  sleepSeconds + 600 + 60

structure HealthReply where
  status : String
  code : Nat
  deriving DecidableEq

/-- The `/health` branch of `SeedHandler.do_GET`. -/
def health_reply (now heartbeat : ℚ) (aliveFlag : Bool) (maxStale : ℚ) : HealthReply :=
  let stale : Bool := decide (now - heartbeat > maxStale)
  let healthy : Bool := aliveFlag && !stale
  { status := if healthy then "ok" else "unhealthy",
    code := if healthy then 200 else 503 }

/-! ### Epoch (galla) counter persistence and boot resume (`load_galla`, `live`) -/

/-- `load_galla`: read `BRAIN/.galla`, parse `int(f.read().strip())`, and
return 0 on `FileNotFoundError` (modelled as `none`) or `ValueError`
(unparsable content). -/
def load_galla (fileContent : Option String) : Int :=
  match fileContent with
  | none => 0
  | some s =>
    match (pyStrip s).toInt? with
    | some n => n
    | none => 0

/-- Boot-time resume logic of `live` (step 4): resume at a positive saved
counter; otherwise galla 1 when `main.py` exists (legacy restart); otherwise
galla 0 (birth). -/
def boot_galla (saved : Int) (mainPyExists : Bool) : Int :=
  if saved > 0 then saved
  else if mainPyExists then 1
  else 0

/-! ### The `execute` shell tool (`tool_execute`, `_BLOCKED_COMMANDS`)

The subprocess call is an effect; it is modelled by an oracle
`run : String → RunOutcome` describing what `subprocess.run` would do for a
given command, and the embedding records in `spawned` whether the subprocess
machinery was invoked at all. -/

def _BLOCKED_COMMANDS : List String := ["seed.py", "seed .py"]

/-- Observable outcome of `subprocess.run(command, shell=True, ...)`. -/
inductive RunOutcome where
  | completed (stdout stderr : String) (returncode : Int)
  | timedOut
  | raised (msg : String)

/-- Result of one `tool_execute` call: the returned string plus whether a
subprocess was launched. -/
structure ExecCall where
  result : String
  spawned : Bool

/-- Output assembly of `tool_execute` for a completed subprocess:
stdout, then a `STDERR:` section when stderr is non-empty, then an
`EXIT CODE:` line when the return code is non-zero, stripped, with
`"(no output)"` replacing an empty result. -/
def exec_output (stdout stderr : String) : String :=
  (if stdout = "" then "" else stdout)
    ++ (if stderr = "" then "" else "\nSTDERR:\n" ++ stderr)

def exec_result_str (stdout stderr : String) (returncode : Int) : String :=
  let o := exec_output stdout stderr
  let o := if returncode ≠ 0 then o ++ "\nEXIT CODE: " ++ toString returncode else o
  let s := pyStrip o
  if s = "" then "(no output)" else s

/-- `tool_execute`: denylist check first (returning before any subprocess is
started), then the subprocess call with its timeout and exception handlers. -/
def tool_execute (execTimeout : Nat) (run : String → RunOutcome) (command : String) :
    ExecCall :=
  match _BLOCKED_COMMANDS.find? (fun blocked => strContains command blocked) with
  | some blocked =>
    { result := "ERROR: Cannot run " ++ blocked ++ " — seed.py is managed by the kernel, not you.",
      spawned := false }
  | none =>
    match run command with
    | .completed stdout stderr returncode =>
      { result := exec_result_str stdout stderr returncode, spawned := true }
    | .timedOut =>
      { result := "ERROR: Command timed out after " ++ toString execTimeout
          ++ " seconds. Use nohup for long-running processes.", spawned := true }
    | .raised msg =>
      { result := "ERROR: " ++ msg, spawned := true }

/-! ### Subagent supervisor (`AgentInfo`, `tool_spawn_agent`, `check_agents`)

The registry `_agents` (a Python dict, insertion-ordered, keyed by task id)
is modelled as an association list.  A `multiprocessing.Process` handle is
modelled by its observable state: `procAlive` (`is_alive()`), `exitNormal`
(whether the worker exited normally, i.e. `exitcode == 0` — the source never
reads it, which is exactly what claim C4 is about), and `joined` (whether
`join()` was called).  Every lock-guarded section of the source is a single
atomic transition here. -/

structure AgentInfo where
  task_id : String
  prompt : String
  intent : String
  timeout : Int
  pid : Nat := 0
  start_time : ℚ := 0
  status : String := "pending"
  result : String := ""
  procAlive : Bool := true
  exitNormal : Bool := true
  joined : Bool := false
  deriving DecidableEq

/-- Arguments of a `spawn_agent` tool call, before the `args.get` defaults
of `tool_spawn_agent` are applied (`none` models an absent key). -/
structure SpawnArgs where
  task_id : Option String := none
  prompt : Option String := none
  intent : Option String := none
  timeout : Option Int := none

/-- `sum(1 for a in _agents.values() if a.status == "running")`. -/
def count_running (agents : List (String × AgentInfo)) : Nat :=
  (agents.map (fun p => p.2)).countP (fun a => a.status == "running")

/-- Python dict assignment `_agents[task_id] = agent`: replace in place if
the key exists, else append (dicts preserve insertion order). -/
def dictInsert (agents : List (String × AgentInfo)) (tid : String) (info : AgentInfo) :
    List (String × AgentInfo) :=
  if (List.lookup tid agents).isSome then
    agents.map (fun p => if p.1 = tid then (tid, info) else p)
  else
    agents ++ [(tid, info)]

/-- `tool_spawn_agent`: validate presence of `task_id`/`prompt`, reject a
task id that is already running, reject when the count of running tasks has
reached `MAX_SUBAGENTS` (`cfgMax`), otherwise launch a worker (`newPid` is
the pid the OS would assign) and record it `running`.  The third component
reports whether a worker process was launched. -/
def tool_spawn_agent (cfgMax : Nat) (cfgTimeout : Int) (now : ℚ) (newPid : Nat)
    (agents : List (String × AgentInfo)) (a : SpawnArgs) :
    String × List (String × AgentInfo) × Bool :=
  let task_id := a.task_id.getD ""
  let prompt := a.prompt.getD ""
  let intent := a.intent.getD "code"
  let timeout := a.timeout.getD cfgTimeout
  if task_id = "" ∨ prompt = "" then
    ("ERROR: task_id and prompt are required", agents, false)
  else if (match List.lookup task_id agents with
           | some info => info.status == "running"
           | none => false) then
    ("ERROR: agent \x27" ++ task_id ++ "\x27 is already running", agents, false)
  else if cfgMax ≤ count_running agents then
    ("ERROR: max concurrent subagents (" ++ toString cfgMax
      ++ ") reached. Wait for one to finish.", agents, false)
  else
    let info : AgentInfo :=
      { task_id := task_id, prompt := prompt.take 200, intent := intent,
        timeout := timeout, pid := newPid, start_time := now, status := "running" }
    ("OK: Subagent \x27" ++ task_id ++ "\x27 spawned (PID " ++ toString newPid
      ++ "). Results will appear in your inbox.",
     dictInsert agents task_id info, true)

/-- Per-agent body of the `check_agents` loop: a running agent whose worker
has exited is marked `completed` and joined; a running agent past its
timeout is terminated (`procAlive := false`), joined and marked
`timed_out`; anything else is untouched. -/
def pollAgent (now : ℚ) (a : AgentInfo) : AgentInfo :=
  if a.status == "running" then
    if !a.procAlive then
      { a with status := "completed", joined := true }
    else if now - a.start_time > (a.timeout : ℚ) then
      { a with procAlive := false, joined := true, status := "timed_out" }
    else a
  else a

/-- Status line the `check_agents` loop appends for one agent (`int()` on a
non-negative elapsed time is the floor). -/
def agent_line (now : ℚ) (tid : String) (a : AgentInfo) : Option String :=
  if a.status == "running" then
    let elapsed := now - a.start_time
    if !a.procAlive then
      some ("  [" ++ tid ++ "] completed (ran " ++ toString ⌊elapsed⌋ ++ "s)")
    else if elapsed > (a.timeout : ℚ) then
      some ("  [" ++ tid ++ "] TIMED OUT after " ++ toString ⌊elapsed⌋ ++ "s")
    else
      some ("  [" ++ tid ++ "] running (" ++ toString ⌊elapsed⌋ ++ "s / "
        ++ toString a.timeout ++ "s)")
  else if a.status == "completed" || a.status == "failed" || a.status == "timed_out" then
    some ("  [" ++ tid ++ "] " ++ a.status)
  else none

/-- `check_agents`: one reconciliation pass over the registry, returning the
updated registry and the status summary string. -/
def check_agents (now : ℚ) (agents : List (String × AgentInfo)) :
    List (String × AgentInfo) × String :=
  let updated := agents.map (fun p => (p.1, pollAgent now p.2))
  let lines := agents.filterMap (fun p => agent_line now p.1 p.2)
  (updated, if lines.isEmpty then "(no subagents)" else String.intercalate "\n" lines)

/-! ### Mailbox inbox (`SeedHandler.do_POST` on `/inbox`, `drain_inbox`)

Both operations hold `_inbox_lock` around their read-modify-write of the
shared `_inbox` list, so any concurrent execution is equivalent to a serial
interleaving of two atomic operations: a `post` (appending one message when
it is non-empty, mirroring the `if msg:` check of `do_POST`) and a `drain`
(`drain_inbox`: copy the buffer out and clear it).  An execution is a list
of these atomic operations; `drained` records the successive drain results. -/

structure InboxMsg where
  message : String
  source : String
  deriving DecidableEq

inductive MailboxOp where
  | post (message source : String)
  | drain

structure MailboxState where
  inbox : List InboxMsg
  drained : List (List InboxMsg)
  deriving DecidableEq

/-- One atomic mailbox operation: the `/inbox` POST handler appends
`{message, source}` when the message is non-empty (an empty message is
rejected with a 400 and the buffer untouched); `drain_inbox` returns the
current buffer and clears it. -/
def mailbox_step (st : MailboxState) (op : MailboxOp) : MailboxState :=
  match op with
  | .post m src => if m = "" then st else { st with inbox := st.inbox ++ [⟨m, src⟩] }
  | .drain => { inbox := [], drained := st.drained ++ [st.inbox] }

def mailbox_run (ops : List MailboxOp) (st : MailboxState) : MailboxState :=
  ops.foldl mailbox_step st

/-- The messages successfully posted by an operation sequence (empty-message
posts are rejected and never enter the buffer). -/
def accepted_posts (ops : List MailboxOp) : List InboxMsg :=
  ops.filterMap (fun op =>
    match op with
    | .post m src => if m = "" then none else some ⟨m, src⟩
    | .drain => none)

/-! ### Tool-calling loop (`think_and_act`)

The reasoning service (`think`, a POST to the kernel) is an oracle from the
current conversation to an optional response (`none` models a
network/timeout failure, in which case `think` returns Python `None`).  The
response fields model `response.get("content", "")`,
`response.get("tool_calls", [])` and `response.get("done", True)` after the
defaults are applied.  Tool side effects are an oracle `toolEff` giving the
string each known registered tool would return; an unknown tool name yields
the `ERROR: Unknown tool` string, exactly as in the source dispatch. -/

structure ToolCall where
  id : String
  name : String
  arguments : List (String × String)
  deriving DecidableEq

inductive Message where
  | user (content : String)
  | assistant (content : String) (tool_calls : List ToolCall)
  | toolResult (tool_call_id : String) (content : String) (is_error : Bool)
  deriving DecidableEq

structure Action where
  tool : String
  args : List (String × String)
  result : String
  deriving DecidableEq

structure ThinkResponse where
  content : String
  tool_calls : List ToolCall
  done : Bool

/-- Names registered in `TOOL_EXECUTORS`. -/
def KNOWN_TOOLS : List String := ["read", "write", "execute", "restart", "spawn_agent"]

/-- Body of the `for tc in tool_calls` loop of `think_and_act`: execute the
call, flag an error by the `ERROR:` marker, record an action with the result
truncated to 200 characters, and append the correlated `tool_result` turn. -/
def exec_tool_call (toolEff : String → List (String × String) → String)
    (st : List Message × List Action) (tc : ToolCall) : List Message × List Action :=
  let result := if KNOWN_TOOLS.contains tc.name then toolEff tc.name tc.arguments
                else "ERROR: Unknown tool: " ++ tc.name
  let isErr := isErrorResult result
  (st.1 ++ [Message.toolResult tc.id result isErr],
   st.2 ++ [{ tool := tc.name, args := tc.arguments, result := result.take 200 }])

/-- The `for i in range(max_loops)` body of `think_and_act`, with the
remaining number of rounds as fuel: a failed think call returns the
unreachable-kernel sentinel; no tool calls or `done` returns the content;
otherwise the assistant turn is appended, every requested call is executed
in order, and the loop repeats.  Exhausted fuel falls through to the
loop-limit sentinel, as the source does after `max_loops` rounds. -/
def think_and_act_loop (svc : List Message → Option ThinkResponse)
    (toolEff : String → List (String × String) → String) :
    Nat → List Message → List Action → String × List Action
  | 0, _, actions => ("I hit my tool loop limit. Pausing to avoid runaway.", actions)
  | n + 1, messages, actions =>
    match svc messages with
    | none => ("I couldn\x27t reach the kernel to think.", actions)
    | some r =>
      if r.tool_calls.isEmpty || r.done then (r.content, actions)
      else
        let messages1 := messages ++ [Message.assistant r.content r.tool_calls]
        let st := r.tool_calls.foldl (exec_tool_call toolEff) (messages1, actions)
        think_and_act_loop svc toolEff n st.1 st.2

/-- `think_and_act` with its round cap `max_loops = 50`. -/
def think_and_act (svc : List Message → Option ThinkResponse)
    (toolEff : String → List (String × String) → String)
    (messages : List Message) : String × List Action :=
  think_and_act_loop svc toolEff 50 messages []

/-! ### Epoch scheduler: plan-phase failure fallback (`live`, non-birth branch)

The non-birth body of one `live` iteration, from the plan-failure detection
to the end-of-epoch counter increment.  The plan-phase result is the string
`think_and_act` returned for the planning call; the execute-phase
`think_and_act` call is an oracle `execThink` from the seeded conversation
to its `(content, actions)` result.  The best-effort kernel posts
(`post_galla`) are recorded as outcome fields. -/

def _PLAN_ERRORS : List String := ["couldn\x27t reach the kernel", "tool loop limit"]

/-- The hard-coded fallback plan substituted when the plan phase fails. -/
def FALLBACK_PLAN : String :=
  "1. Check on human messages and respond if needed.\n2. Ensure my app is healthy.\n3. Make one small improvement."

/-- `plan_failed = not plan or any(e in (plan or "").lower() for e in _PLAN_ERRORS)`. -/
def plan_failed (plan : String) : Bool :=
  plan == "" || _PLAN_ERRORS.any (fun e => strContains (pyLower plan) e)

structure EpochOutcome where
  postedPlan : String
  execMessages : List Message
  postedSummary : String
  postedActionsCount : Nat
  newGalla : Int

/-- One non-birth epoch from the end of the plan phase onwards: detect a
failed plan, post the (possibly warning-tagged) plan to the galla timeline,
seed the execute conversation with the original prompt, the (possibly
fallback) plan as an assistant turn and the execute instruction, run the
execute phase, post its summary and action count, and advance the counter. -/
def run_non_birth_epoch (galla : Int) (prompt planResult : String)
    (execThink : List Message → String × List Action) : EpochOutcome :=
  let failed := plan_failed planResult
  let postedPlan :=
    if failed then (if planResult == "" then "⚠ Planning failed" else "⚠ " ++ planResult)
    else planResult
  let plan := if failed then FALLBACK_PLAN else planResult
  let ems := [Message.user prompt, Message.assistant plan [],
              Message.user "Good plan. Now execute it. Use your tools."]
  let r := execThink ems
  { postedPlan := postedPlan, execMessages := ems, postedSummary := r.1,
    postedActionsCount := r.2.length, newGalla := galla + 1 }

end Seed

namespace Seed

/-! ### Theorems for claims C6, C7, C8 -/

/-- Claim C6: at boot the galla counter is: the persisted value when it is
positive; else 1 when `main.py` exists in the brain directory; else 0.
A missing persisted `.galla` file reads as 0. -/
theorem boot_galla_resume_logic (saved : Int) (mainPyExists : Bool) :
    (saved > 0 → boot_galla saved mainPyExists = saved) ∧
    (saved ≤ 0 → mainPyExists = true → boot_galla saved mainPyExists = 1) ∧
    (saved ≤ 0 → mainPyExists = false → boot_galla saved mainPyExists = 0) ∧
    load_galla none = 0 := by
  refine ⟨fun h => ?_, fun h hm => ?_, fun h hm => ?_, rfl⟩
  · simp [boot_galla, h]
  · have h2 : ¬ saved > 0 := by omega
    subst hm; simp [boot_galla, h2]
  · have h2 : ¬ saved > 0 := by omega
    subst hm; simp [boot_galla, h2]

theorem boot_galla_resume_logic_witness :
    boot_galla 5 false = 5 ∧ boot_galla 0 true = 1 ∧ boot_galla 0 false = 0 ∧
    load_galla none = 0 :=
  ⟨(boot_galla_resume_logic 5 false).1 (by decide),
   (boot_galla_resume_logic 0 true).2.1 (by decide) rfl,
   (boot_galla_resume_logic 0 false).2.2.1 (by decide) rfl,
   (boot_galla_resume_logic 0 false).2.2.2⟩

/-- Claim C7: with heartbeat last updated at `T` and staleness bound
`S = sleep + 600 + 60`, a health request with `alive = true` arriving before
`T + S` answers `("ok", 200)`; a request arriving after `T + S`, or with
`alive = false`, answers `("unhealthy", 503)`. -/
theorem health_reply_staleness (sleepSeconds T now : ℚ) (aliveFlag : Bool) :
    (aliveFlag = true → now < T + heartbeat_max sleepSeconds →
      health_reply now T aliveFlag (heartbeat_max sleepSeconds) = ⟨"ok", 200⟩) ∧
    (now > T + heartbeat_max sleepSeconds →
      health_reply now T aliveFlag (heartbeat_max sleepSeconds) = ⟨"unhealthy", 503⟩) ∧
    (aliveFlag = false →
      health_reply now T aliveFlag (heartbeat_max sleepSeconds) = ⟨"unhealthy", 503⟩) := by
  refine ⟨fun ha hlt => ?_, fun hgt => ?_, fun ha => ?_⟩
  · have hns : ¬ now - T > heartbeat_max sleepSeconds := by linarith
    simp [health_reply, ha, hns]
  · have hs : now - T > heartbeat_max sleepSeconds := by linarith
    simp [health_reply, hs]
  · simp [health_reply, ha]

theorem health_reply_staleness_witness :
    health_reply 100 0 true (heartbeat_max 30) = ⟨"ok", 200⟩ ∧
    health_reply 1000 0 true (heartbeat_max 30) = ⟨"unhealthy", 503⟩ ∧
    health_reply 100 0 false (heartbeat_max 30) = ⟨"unhealthy", 503⟩ :=
  ⟨(health_reply_staleness 30 0 100 true).1 rfl (by norm_num [heartbeat_max]),
   (health_reply_staleness 30 0 1000 true).2.1 (by norm_num [heartbeat_max]),
   (health_reply_staleness 30 0 100 false).2.2 rfl⟩

/-- Claim C8: an `execute` tool call whose command contains a denylisted
substring returns an `ERROR:`-prefixed result and never invokes the
subprocess machinery. -/
theorem tool_execute_denylist (execTimeout : Nat) (run : String → RunOutcome)
    (command : String)
    (h : ∃ b ∈ _BLOCKED_COMMANDS, strContains command b = true) :
    (tool_execute execTimeout run command).spawned = false ∧
    isErrorResult (tool_execute execTimeout run command).result = true := by
  have hfind : (_BLOCKED_COMMANDS.find? (fun blocked => strContains command blocked)).isSome := by
    rw [List.find?_isSome]
    exact h
  rcases hfound : _BLOCKED_COMMANDS.find? (fun blocked => strContains command blocked) with _ | b
  · rw [hfound] at hfind; simp at hfind
  · have hb : b ∈ _BLOCKED_COMMANDS := List.mem_of_find?_eq_some hfound
    have hcases : b = "seed.py" ∨ b = "seed .py" := by
      simpa [_BLOCKED_COMMANDS] using hb
    unfold tool_execute
    rw [hfound]
    rcases hcases with hb1 | hb1 <;> subst hb1 <;> exact ⟨rfl, rfl⟩

theorem tool_execute_denylist_witness :
    (tool_execute 60 (fun _ => RunOutcome.completed "" "" 0) "python seed.py").spawned = false ∧
    isErrorResult (tool_execute 60 (fun _ => RunOutcome.completed "" "" 0)
      "python seed.py").result = true :=
  tool_execute_denylist 60 (fun _ => RunOutcome.completed "" "" 0) "python seed.py"
    ⟨"seed.py", by decide, by decide⟩

/-! ### Theorems for claims C2, C3, C4 -/

lemma isPrefixOf_append (p a b : List Char) (h : p.isPrefixOf a = true) :
    p.isPrefixOf (a ++ b) = true := by
  simp only [List.isPrefixOf_iff_prefix] at h ⊢
  exact h.trans (List.prefix_append a b)

lemma isErrorResult_append (s t : String) (h : isErrorResult s = true) :
    isErrorResult (s ++ t) = true := by
  unfold isErrorResult strStarts at h ⊢
  have hdata : (s ++ t).data = s.data ++ t.data := rfl
  rw [hdata]
  exact isPrefixOf_append _ _ _ h

lemma lookup_eq_none_of_fresh {agents : List (String × AgentInfo)} {tid : String}
    (h : ∀ p ∈ agents, p.1 ≠ tid) : List.lookup tid agents = none := by
  induction agents with
  | nil => rfl
  | cons hd tl ih =>
    rcases hd with ⟨k, v⟩
    have hhd : k ≠ tid := h (k, v) (List.mem_cons_self (k, v) tl)
    have htid : (tid == k) = false := by
      simp only [beq_eq_false_iff_ne, ne_eq]
      exact fun he => hhd he.symm
    simp only [List.lookup, htid]
    exact ih (fun p hp => h p (List.mem_cons_of_mem (k, v) hp))

/-- Claim C2: with the number of running tasks at the ceiling, a further
spawn with a fresh task id and non-empty prompt is rejected with an
`ERROR:` string, launches no worker, and leaves the registry unchanged. -/
theorem tool_spawn_agent_ceiling (cfgMax : Nat) (cfgTimeout : Int) (now : ℚ)
    (newPid : Nat) (agents : List (String × AgentInfo)) (a : SpawnArgs)
    (htid : a.task_id.getD "" ≠ "") (hprompt : a.prompt.getD "" ≠ "")
    (hfresh : ∀ p ∈ agents, p.1 ≠ a.task_id.getD "")
    (hfull : count_running agents = cfgMax) :
    tool_spawn_agent cfgMax cfgTimeout now newPid agents a =
      ("ERROR: max concurrent subagents (" ++ toString cfgMax
        ++ ") reached. Wait for one to finish.", agents, false) ∧
    isErrorResult (tool_spawn_agent cfgMax cfgTimeout now newPid agents a).1 = true := by
  have hlk : List.lookup (a.task_id.getD "") agents = none := lookup_eq_none_of_fresh hfresh
  have hmain : tool_spawn_agent cfgMax cfgTimeout now newPid agents a =
      ("ERROR: max concurrent subagents (" ++ toString cfgMax
        ++ ") reached. Wait for one to finish.", agents, false) := by
    unfold tool_spawn_agent
    rw [if_neg (by simp [htid, hprompt])]
    rw [hlk]
    simp [hfull]
  refine ⟨hmain, ?_⟩
  rw [hmain]
  exact isErrorResult_append _ _ (isErrorResult_append _ _ (by decide))

theorem tool_spawn_agent_ceiling_witness :
    tool_spawn_agent 1 600 50 77
      [("t1", { task_id := "t1", prompt := "p1", intent := "code", timeout := 600,
                status := "running" })]
      { task_id := some "t2", prompt := some "do things" } =
      ("ERROR: max concurrent subagents (1) reached. Wait for one to finish.",
       [("t1", { task_id := "t1", prompt := "p1", intent := "code", timeout := 600,
                 status := "running" })], false) :=
  (tool_spawn_agent_ceiling 1 600 50 77
    [("t1", { task_id := "t1", prompt := "p1", intent := "code", timeout := 600,
              status := "running" })]
    { task_id := some "t2", prompt := some "do things" }
    (by decide) (by decide) (by decide) (by decide)).1

lemma lookup_check_agents (now : ℚ) (agents : List (String × AgentInfo)) (tid : String) :
    List.lookup tid (check_agents now agents).1 =
      (List.lookup tid agents).map (pollAgent now) := by
  show List.lookup tid (agents.map (fun p => (p.1, pollAgent now p.2))) = _
  induction agents with
  | nil => rfl
  | cons hd tl ih =>
    rcases hd with ⟨k, v⟩
    by_cases hk : (tid == k) = true
    · simp [List.lookup, hk]
    · simp only [List.map_cons, List.lookup, hk]
      simpa using ih

/-- Claim C3: a running task whose worker is still alive and whose elapsed
time exceeds its timeout is, after the next `check_agents` pass, recorded as
`timed_out` with its worker terminated (and joined). -/
theorem check_agents_timeout (now : ℚ) (agents : List (String × AgentInfo))
    (tid : String) (a : AgentInfo)
    (hl : List.lookup tid agents = some a)
    (hs : a.status = "running") (hal : a.procAlive = true)
    (ht : now - a.start_time > (a.timeout : ℚ)) :
    ∃ a2, List.lookup tid (check_agents now agents).1 = some a2 ∧
      a2.status = "timed_out" ∧ a2.procAlive = false ∧ a2.joined = true := by
  refine ⟨pollAgent now a, ?_, ?_⟩
  · rw [lookup_check_agents, hl]; rfl
  · unfold pollAgent
    rw [if_pos (by simp [hs]), if_neg (by simp [hal]), if_pos ht]
    exact ⟨rfl, rfl, rfl⟩

theorem check_agents_timeout_witness :
    ∃ a2, List.lookup "t1"
        (check_agents 100
          [("t1", { task_id := "t1", prompt := "p", intent := "code", timeout := 50,
                    status := "running", start_time := 0 })]).1 = some a2 ∧
      a2.status = "timed_out" ∧ a2.procAlive = false ∧ a2.joined = true :=
  check_agents_timeout 100
    [("t1", { task_id := "t1", prompt := "p", intent := "code", timeout := 50,
              status := "running", start_time := 0 })]
    "t1" { task_id := "t1", prompt := "p", intent := "code", timeout := 50,
           status := "running", start_time := 0 }
    (by decide) rfl rfl (by norm_num)

/-- Claim C4, counterexample: a running task whose worker has exited
abnormally (`exitNormal = false`) is still marked `completed` by
`check_agents`, never `failed` — the exit status is not inspected. -/
theorem check_agents_exited_counterexample :
    let a : AgentInfo := { task_id := "t1", prompt := "p", intent := "code", timeout := 60,
                           status := "running", procAlive := false, exitNormal := false }
    a.exitNormal = false ∧ a.status = "running" ∧ a.procAlive = false ∧
    List.lookup "t1" (check_agents 10 [("t1", a)]).1 = some (pollAgent 10 a) ∧
    (pollAgent 10 a).status = "completed" ∧ ¬ (pollAgent 10 a).status = "failed" := by
  decide

/-- Claim C4, amended: a running task whose worker process has exited by the
time `check_agents` runs is marked `completed` and joined, regardless of how
the worker exited (the source never inspects the exit code; `failed` is set
only by the shutdown cleanup). -/
theorem check_agents_exited (now : ℚ) (agents : List (String × AgentInfo))
    (tid : String) (a : AgentInfo)
    (hl : List.lookup tid agents = some a)
    (hs : a.status = "running") (hdead : a.procAlive = false) :
    ∃ a2, List.lookup tid (check_agents now agents).1 = some a2 ∧
      a2.status = "completed" ∧ a2.joined = true := by
  refine ⟨pollAgent now a, ?_, ?_⟩
  · rw [lookup_check_agents, hl]; rfl
  · unfold pollAgent
    rw [if_pos (by simp [hs]), if_pos (by simp [hdead])]
    exact ⟨rfl, rfl⟩

theorem check_agents_exited_witness :
    ∃ a2, List.lookup "t9"
        (check_agents 10
          [("t9", { task_id := "t9", prompt := "p", intent := "code", timeout := 60,
                    status := "running", procAlive := false, exitNormal := false })]).1
        = some a2 ∧
      a2.status = "completed" ∧ a2.joined = true :=
  check_agents_exited 10
    [("t9", { task_id := "t9", prompt := "p", intent := "code", timeout := 60,
              status := "running", procAlive := false, exitNormal := false })]
    "t9" { task_id := "t9", prompt := "p", intent := "code", timeout := 60,
           status := "running", procAlive := false, exitNormal := false }
    (by decide) rfl rfl

/-! ### Theorem for claim C9 -/

lemma mailbox_run_accounting (ops : List MailboxOp) (st : MailboxState) :
    (mailbox_run ops st).drained.flatten ++ (mailbox_run ops st).inbox =
      st.drained.flatten ++ st.inbox ++ accepted_posts ops := by
  induction ops generalizing st with
  | nil => simp [mailbox_run, accepted_posts]
  | cons op t ih =>
    have hrun : mailbox_run (op :: t) st = mailbox_run t (mailbox_step st op) := rfl
    rw [hrun, ih]
    rcases op with ⟨m, src⟩ | _
    · by_cases hm : m = ""
      · simp [mailbox_step, accepted_posts, hm, List.filterMap]
      · simp only [mailbox_step, if_neg hm]
        simp [accepted_posts, List.filterMap, hm, List.append_assoc]
    · simp [mailbox_step, accepted_posts, List.filterMap, List.append_assoc]

/-- Claim C9: for any serialization of concurrent successful `PostInbox`
calls and `DrainInbox` calls (each operation is atomic under `_inbox_lock`),
running the operations and then draining once more observes every accepted
posted message exactly once across the drain results, in order: the
concatenation of all drains equals the list of accepted posts, and the
buffer is left empty. -/
theorem inbox_exactly_once (ops : List MailboxOp) :
    (mailbox_run (ops ++ [MailboxOp.drain]) ⟨[], []⟩).inbox = [] ∧
    (mailbox_run (ops ++ [MailboxOp.drain]) ⟨[], []⟩).drained.flatten =
      accepted_posts ops := by
  have hsplit : mailbox_run (ops ++ [MailboxOp.drain]) ⟨[], []⟩ =
      mailbox_step (mailbox_run ops ⟨[], []⟩) MailboxOp.drain := by
    simp [mailbox_run, List.foldl_append]
  have hacc := mailbox_run_accounting ops ⟨[], []⟩
  simp only [List.flatten_nil, List.nil_append] at hacc
  constructor
  · rw [hsplit]; rfl
  · rw [hsplit]
    show ((mailbox_run ops ⟨[], []⟩).drained ++ [(mailbox_run ops ⟨[], []⟩).inbox]).flatten
      = accepted_posts ops
    rw [List.flatten_append]
    simpa using hacc

/-! ### Theorems for claims C1 and C5 -/

/-- Claim C1: if the reasoning service answers every round with a non-empty
`tool_calls` list and `done = false` (never signalling completion), the
tool-calling loop still terminates — it is structurally bounded by the round
cap `max_loops = 50` — and returns the loop-limit sentinel message together
with the action list, instead of looping forever or silently truncating. -/
theorem think_and_act_loop_cap (svc : List Message → Option ThinkResponse)
    (toolEff : String → List (String × String) → String) (messages : List Message)
    (H : ∀ ms, ∃ r, svc ms = some r ∧ r.tool_calls ≠ [] ∧ r.done = false) :
    (think_and_act svc toolEff messages).1 =
      "I hit my tool loop limit. Pausing to avoid runaway." := by
  suffices hgen : ∀ (n : Nat) (ms : List Message) (acts : List Action),
      (think_and_act_loop svc toolEff n ms acts).1 =
        "I hit my tool loop limit. Pausing to avoid runaway." by
    exact hgen 50 messages []
  intro n
  induction n with
  | zero => intro ms acts; rfl
  | succ n ih =>
    intro ms acts
    obtain ⟨r, hr, htc, hdone⟩ := H ms
    have hcond : (r.tool_calls.isEmpty || r.done) = false := by
      simp [List.isEmpty_iff, htc, hdone]
    rw [think_and_act_loop, hr]
    simp only [hcond, Bool.false_eq_true, if_false]
    exact ih _ _

theorem think_and_act_loop_cap_witness :
    (think_and_act
      (fun _ => some ⟨"", [⟨"c1", "read", [("path", "main.py")]⟩], false⟩)
      (fun _ _ => "file contents") []).1 =
      "I hit my tool loop limit. Pausing to avoid runaway." :=
  think_and_act_loop_cap
    (fun _ => some ⟨"", [⟨"c1", "read", [("path", "main.py")]⟩], false⟩)
    (fun _ _ => "file contents") []
    (fun _ => ⟨⟨"", [⟨"c1", "read", [("path", "main.py")]⟩], false⟩, rfl, by decide, rfl⟩)

/-- Claim C5: in a non-birth epoch whose plan phase returned the
unreachable-kernel sentinel, the loop-limit sentinel, or an empty string,
the epoch is not aborted: the execute phase still runs, seeded with the
hard-coded fallback plan as an assistant turn, its summary and action count
are posted, and the epoch counter advances. -/
theorem plan_failure_fallback (galla : Int) (prompt : String)
    (execThink : List Message → String × List Action) (planResult : String)
    (h : planResult = "I couldn\x27t reach the kernel to think." ∨
         planResult = "I hit my tool loop limit. Pausing to avoid runaway." ∨
         planResult = "") :
    (run_non_birth_epoch galla prompt planResult execThink).execMessages =
      [Message.user prompt, Message.assistant FALLBACK_PLAN [],
       Message.user "Good plan. Now execute it. Use your tools."] ∧
    (run_non_birth_epoch galla prompt planResult execThink).newGalla = galla + 1 ∧
    (run_non_birth_epoch galla prompt planResult execThink).postedSummary =
      (execThink [Message.user prompt, Message.assistant FALLBACK_PLAN [],
        Message.user "Good plan. Now execute it. Use your tools."]).1 ∧
    (run_non_birth_epoch galla prompt planResult execThink).postedActionsCount =
      (execThink [Message.user prompt, Message.assistant FALLBACK_PLAN [],
        Message.user "Good plan. Now execute it. Use your tools."]).2.length := by
  have hfail : plan_failed planResult = true := by
    rcases h with h1 | h1 | h1 <;> subst h1 <;> decide
  refine ⟨?_, rfl, ?_, ?_⟩ <;>
    simp [run_non_birth_epoch, hfail]

theorem plan_failure_fallback_witness :
    (run_non_birth_epoch 3 "wake up" "" (fun _ => ("did it", []))).execMessages =
      [Message.user "wake up", Message.assistant FALLBACK_PLAN [],
       Message.user "Good plan. Now execute it. Use your tools."] ∧
    (run_non_birth_epoch 3 "wake up" "" (fun _ => ("did it", []))).newGalla = 4 ∧
    (run_non_birth_epoch 3 "wake up" "" (fun _ => ("did it", []))).postedSummary = "did it" ∧
    (run_non_birth_epoch 3 "wake up" "" (fun _ => ("did it", []))).postedActionsCount = 0 :=
  plan_failure_fallback 3 "wake up" (fun _ => ("did it", [])) "" (Or.inr (Or.inr rfl))

/-! ### Theorems for claim C10 -/

lemma mem_dropWhile_ws {x : Char} {l : List Char} (hx : x ∈ l)
    (hnx : x.isWhitespace = false) : x ∈ l.dropWhile Char.isWhitespace := by
  have hsplit : l.takeWhile Char.isWhitespace ++ l.dropWhile Char.isWhitespace = l :=
    List.takeWhile_append_dropWhile Char.isWhitespace l
  rw [← hsplit] at hx
  rcases List.mem_append.mp hx with h | h
  · exact absurd (List.mem_takeWhile_imp h) (by simp [hnx])
  · exact h

lemma dropWhile_append_split (p : Char → Bool) (a b : List Char) :
    (a ++ b).dropWhile p =
      if a.dropWhile p = [] then b.dropWhile p else a.dropWhile p ++ b := by
  induction a with
  | nil => simp
  | cons x xs ih =>
    by_cases hp : p x = true
    · simpa [List.dropWhile_cons, hp] using ih
    · simp [List.dropWhile_cons, hp]

lemma pyStripRightL_prefix_self (z : List Char) : pyStripRightL z <+: z := by
  unfold pyStripRightL
  have hsuf : z.reverse.dropWhile Char.isWhitespace <:+ z.reverse :=
    List.dropWhile_suffix Char.isWhitespace
  have := List.reverse_prefix.mpr hsuf
  rwa [List.reverse_reverse] at this

lemma pyStripRightL_ne_nil {z : List Char} {x : Char} (hx : x ∈ z)
    (hnx : x.isWhitespace = false) : pyStripRightL z ≠ [] := by
  unfold pyStripRightL
  intro hnil
  have : z.reverse.dropWhile Char.isWhitespace = [] := by
    simpa using congrArg List.reverse hnil
  have hmem : x ∈ z.reverse.dropWhile Char.isWhitespace :=
    mem_dropWhile_ws (List.mem_reverse.mpr hx) hnx
  rw [this] at hmem
  exact List.not_mem_nil x hmem

lemma prefix_of_prefix_append {p x y : List Char} (h : p <+: x ++ y)
    (hlen : p.length ≤ x.length) : p <+: x := by
  rcases h with ⟨t, ht⟩
  have hp : (p ++ t).take p.length = p := List.take_left p t
  rw [ht] at hp
  rw [List.take_append_of_le_length hlen] at hp
  rw [← hp]
  exact List.take_prefix p.length x

/-- Claim C10, counterexample: a command that completes with exit code 1 but
whose own stdout begins with `ERROR:` produces a tool result that does start
with `ERROR:`, so the loop computes `is_error = true` for that turn — the
claim is false as a universal statement about non-zero-exit completions. -/
theorem exec_nonzero_exit_counterexample :
    (tool_execute 60 (fun _ => RunOutcome.completed "ERROR: tests failed" "" 1)
      "./run_tests").spawned = true ∧
    (tool_execute 60 (fun _ => RunOutcome.completed "ERROR: tests failed" "" 1)
      "./run_tests").result = "ERROR: tests failed\nEXIT CODE: 1" ∧
    isErrorResult ((tool_execute 60
      (fun _ => RunOutcome.completed "ERROR: tests failed" "" 1)
      "./run_tests").result) = true := by
  decide

/-- Claim C10, amended: a shell command run to completion with a non-zero
exit status and whose own combined output does not itself begin (after
stripping leading whitespace) with `ERROR:` yields the output with the
`EXIT CODE` suffix appended and stripped, and the result does not carry the
`ERROR:` prefix, so the tool-calling loop computes `is_error = false` for
that turn: tool_execute itself never adds an error marker to a failed
command. -/
theorem exec_nonzero_exit_not_flagged (stdout stderr : String) (rc : Int)
    (hrc : rc ≠ 0)
    (hout : ¬ ("ERROR:".data <+: pyStripLeftL (exec_output stdout stderr).data)) :
    exec_result_str stdout stderr rc =
      pyStrip (exec_output stdout stderr ++ "\nEXIT CODE: " ++ toString rc) ∧
    isErrorResult (exec_result_str stdout stderr rc) = false := by
  set c : List Char := (exec_output stdout stderr).data with hc
  have hdata : (exec_output stdout stderr ++ "\nEXIT CODE: " ++ toString rc).data
      = c ++ ("\nEXIT CODE: ".data ++ (toString rc).data) := by
    show (c ++ "\nEXIT CODE: ".data) ++ (toString rc).data = _
    rw [List.append_assoc]
  set e : List Char := "\nEXIT CODE: ".data ++ (toString rc).data with he
  have heE : e = '\n' :: ("EXIT CODE: ".data ++ (toString rc).data) := rfl
  -- the stripped full output is non-empty: it contains the letter E
  have hEmem : ('E' : Char) ∈ c ++ e := by
    apply List.mem_append.mpr
    right
    rw [heE]
    exact List.mem_cons_of_mem _ (List.mem_append.mpr (Or.inl (by decide)))
  have hEws : ('E' : Char).isWhitespace = false := by decide
  have hsne : pyStripRightL (pyStripLeftL (c ++ e)) ≠ [] :=
    pyStripRightL_ne_nil (mem_dropWhile_ws hEmem hEws) hEws
  -- the stripped full output does not start with the error marker
  have hnopre : ¬ ("ERROR:".data <+: pyStripRightL (pyStripLeftL (c ++ e))) := by
    intro hpre
    have hpre2 : "ERROR:".data <+: pyStripLeftL (c ++ e) :=
      hpre.trans (pyStripRightL_prefix_self _)
    rw [show pyStripLeftL (c ++ e) = (c ++ e).dropWhile Char.isWhitespace from rfl,
        dropWhile_append_split] at hpre2
    by_cases hcnil : c.dropWhile Char.isWhitespace = []
    · rw [if_pos hcnil] at hpre2
      have hdw : e.dropWhile Char.isWhitespace = "EXIT CODE: ".data ++ (toString rc).data := by
        rw [heE, List.dropWhile_cons]
        rw [show ('\n' : Char).isWhitespace = true from rfl]
        simp only [if_true]
        rw [show ("EXIT CODE: ".data ++ (toString rc).data)
            = 'E' :: ("XIT CODE: ".data ++ (toString rc).data) from rfl,
          List.dropWhile_cons]
        rw [show ('E' : Char).isWhitespace = false from rfl]
        simp
      rw [hdw] at hpre2
      have h6 : ("ERROR:".data).length ≤ ("EXIT CODE: ".data).length := by decide
      have := prefix_of_prefix_append hpre2 h6
      rw [← List.isPrefixOf_iff_prefix] at this
      exact absurd this (by decide)
    · rw [if_neg hcnil] at hpre2
      set d : List Char := c.dropWhile Char.isWhitespace with hd
      by_cases hlen : ("ERROR:".data).length ≤ d.length
      · exact hout (prefix_of_prefix_append hpre2 hlen)
      · push_neg at hlen
        have hdpre : d <+: "ERROR:".data := by
          refine List.prefix_of_prefix_length_le (List.prefix_append d e) hpre2 ?_
          omega
        rcases hdpre with ⟨d2, hd2⟩
        rcases hpre2 with ⟨t, ht⟩
        rw [← hd2, List.append_assoc] at ht
        have hde : d2 ++ t = e := List.append_cancel_left ht
        have hd2len : d2 ≠ [] := by
          intro hnil
          rw [hnil, List.append_nil] at hd2
          have : d.length = ("ERROR:".data).length := by rw [hd2]
          omega
        rcases hx : d2 with _ | ⟨x, d2tl⟩
        · exact hd2len hx
        · have hxmem : x ∈ "ERROR:".data := by
            rw [← hd2]
            exact List.mem_append.mpr (Or.inr (by rw [hx]; exact List.mem_cons_self x d2tl))
          have hxnl : x = '\n' := by
            rw [hx] at hde
            rw [heE] at hde
            exact (List.cons.injEq _ _ _ _ ▸ hde).1
          rw [hxnl] at hxmem
          have : ∀ ch ∈ "ERROR:".data, ch ≠ '\n' := by decide
          exact this '\n' hxmem rfl
  -- assemble the two conjuncts
  have hs : pyStrip (exec_output stdout stderr ++ "\nEXIT CODE: " ++ toString rc)
      = ⟨pyStripRightL (pyStripLeftL (c ++ e))⟩ := by
    unfold pyStrip
    rw [hdata]
  have hsne2 : (⟨pyStripRightL (pyStripLeftL (c ++ e))⟩ : String) ≠ "" := by
    intro hempty; exact hsne (congrArg String.data hempty)
  have hres : exec_result_str stdout stderr rc =
      pyStrip (exec_output stdout stderr ++ "\nEXIT CODE: " ++ toString rc) := by
    simp only [exec_result_str, if_pos hrc]
    rw [hs, if_neg hsne2]
  refine ⟨hres, ?_⟩
  rw [hres, hs]
  unfold isErrorResult strStarts
  rw [show (String.mk (pyStripRightL (pyStripLeftL (c ++ e)))).data
      = pyStripRightL (pyStripLeftL (c ++ e)) from rfl]
  rw [← Bool.not_eq_true]
  intro hb
  exact hnopre (List.isPrefixOf_iff_prefix.mp hb)

theorem exec_nonzero_exit_not_flagged_witness :
    exec_result_str "tests: 3 failed" "" 2 =
      pyStrip (exec_output "tests: 3 failed" "" ++ "\nEXIT CODE: " ++ toString (2 : Int)) ∧
    isErrorResult (exec_result_str "tests: 3 failed" "" 2) = false :=
  exec_nonzero_exit_not_flagged "tests: 3 failed" "" 2 (by decide) (by decide)

end Seed
